import Mathlib

/-!
Shallow embedding of `server.py` (pipecat-gemini-server).

The server is a FastAPI shim with three endpoints:
- `GET /` (`health_check`) and `GET /health` (`health`): pure status payloads;
- `POST /connect` (`bot_connect`): creates a room and token through the Daily
  REST helper, spawns a worker subprocess, registers it in the module-level
  dict `bot_procs`, and returns the credentials;
and a shutdown hook `cleanup` that terminates every registered process.

External collaborators (the Daily REST helper's network responses, the OS
spawn outcome) are modelled as an oracle `DailyEnv` supplied to the handler;
the observable actions of a request (room creation, token request, process
launch, registration) are recorded in an event trace so that ordering and
absence of actions can be stated.
-/

set_option autoImplicit false

namespace PipecatServer

/-- Handle to a spawned worker process (a `subprocess.Popen` object).
`exited` records whether the process has terminated, i.e. whether
`Popen.returncode` has been set (by `wait`). -/
structure Proc where
  pid : Nat
  exited : Bool
deriving DecidableEq, Repr

/-- The module-level registry `bot_procs : Dict[int, tuple]`, mapping a
process id to the pair `(proc, room_url)`. A Python dict is modelled as an
association list in insertion order with unique keys maintained by
`dictInsert`. -/
abbrev Registry := List (Nat × Proc × String)

/-- The mutable server state: the `bot_procs` registry. -/
structure ServerState where
  bot_procs : Registry
deriving DecidableEq, Repr

/-- Python dict assignment `d[k] = v`: overwrite in place if the key is
present (keeping insertion order), otherwise append at the end. -/
def dictInsert {α : Type} (l : List (Nat × α)) (k : Nat) (v : α) : List (Nat × α) :=
  match l with
  | [] => [(k, v)]
  | (k₁, v₁) :: rest => if k₁ = k then (k, v) :: rest else (k₁, v₁) :: dictInsert rest k v

/-- Python dict lookup `d.get(k)`. -/
def dictLookup {α : Type} (l : List (Nat × α)) (k : Nat) : Option α :=
  match l with
  | [] => none
  | (k₁, v₁) :: rest => if k₁ = k then some v₁ else dictLookup rest k

/-- Observable actions performed by the `/connect` handler, in the order they
happen. -/
inductive Event where
  /-- `daily_helpers["rest"].create_room(DailyRoomParams())` was called. -/
  | createRoom
  /-- `daily_helpers["rest"].get_token(room_url)` was called. -/
  | getToken (room_url : String)
  /-- `subprocess.Popen` was invoked with the given shell command line. -/
  | launch (cmd : String)
  /-- `bot_procs[proc.pid] = (proc, room_url)` was executed. -/
  | register (pid : Nat) (room_url : String)
deriving DecidableEq, Repr

/-- A FastAPI `HTTPException(status_code, detail)`. -/
structure HTTPException where
  status_code : Nat
  detail : String
deriving DecidableEq, Repr

/-- Result of the `/connect` endpoint: either HTTP 200 with JSON body
holding exactly the fields `room_url` and `token`, or an `HTTPException`
surfaced as an HTTP error response. -/
inductive ConnectResult where
  | ok (room_url : String) (tok : String)
  | httpError (status : Nat) (detail : String)
deriving DecidableEq, Repr

/-- HTTP status of a `ConnectResult` (FastAPI returns 200 for a plain dict). -/
def ConnectResult.status : ConnectResult → Nat
  | .ok _ _ => 200
  | .httpError s _ => s

/-- Oracle for the external collaborators of one `/connect` request:
`createRoomUrl` is the `url` field of the room object returned by
`create_room` (empty string when the response lacks a usable URL, Python
falsy); `getToken u` is the token string returned by `get_token(u)` (empty
when missing, Python falsy); `spawn cmd` is the outcome of
`subprocess.Popen` on the command line `cmd` (`none` when it raises), with
`spawnErr` the text of the raised exception. -/
structure DailyEnv where
  createRoomUrl : String
  getToken : String → String
  spawn : String → Option Proc
  spawnErr : String

/-- Embedding of `create_room_and_token` (server.py:99-116): create a room,
fail with HTTP 500 if its URL is falsy; get a token for that URL, fail with
HTTP 500 naming the room if the token is falsy; otherwise return both.
The first component is the trace of external actions performed. -/
def create_room_and_token (env : DailyEnv) :
    List Event × Except HTTPException (String × String) :=
  let room_url := env.createRoomUrl
  if room_url = "" then
    ([Event.createRoom], Except.error ⟨500, "Failed to create room"⟩)
  else
    let tok := env.getToken room_url
    if tok = "" then
      ([Event.createRoom, Event.getToken room_url],
        Except.error ⟨500, "Failed to get token for room: " ++ room_url⟩)
    else
      ([Event.createRoom, Event.getToken room_url], Except.ok (room_url, tok))

/-- The worker module name, `bot_file = "bot-gemini"` (server.py:137). -/
def bot_file : String := "bot-gemini"

/-- The shell command line passed to `subprocess.Popen`
(server.py:139): `python3 -m bot-gemini -u <room_url> -t <token>`. -/
def botCommand (room_url : String) (tok : String) : String :=
  "python3 -m " ++ bot_file ++ " -u " ++ room_url ++ " -t " ++ tok

/-- Embedding of the `POST /connect` handler `bot_connect`
(server.py:119-149): provision room and token via `create_room_and_token`
(an `HTTPException` propagates as the response); spawn the worker with the
room URL and token on its command line, responding HTTP 500 with the cause
when `Popen` raises; on success register `(proc, room_url)` under
`proc.pid` in `bot_procs` and return the authentication bundle. Returns
(event trace, new state, response). -/
def bot_connect (env : DailyEnv) (st : ServerState) :
    List Event × ServerState × ConnectResult :=
  match create_room_and_token env with
  | (tr, Except.error e) => (tr, st, ConnectResult.httpError e.status_code e.detail)
  | (tr, Except.ok (room_url, tok)) =>
    match env.spawn (botCommand room_url tok) with
    | none =>
      (tr ++ [Event.launch (botCommand room_url tok)], st,
        ConnectResult.httpError 500 ("Failed to start subprocess: " ++ env.spawnErr))
    | some proc =>
      (tr ++ [Event.launch (botCommand room_url tok), Event.register proc.pid room_url],
        ⟨dictInsert st.bot_procs proc.pid (proc, room_url)⟩,
        ConnectResult.ok room_url tok)

/-- Observable actions of `cleanup`. -/
inductive CleanupEvent where
  /-- A termination signal was actually delivered to the process. -/
  | signalSent (pid : Nat)
  /-- `proc.wait()` returned for the process. -/
  | waited (pid : Nat)
deriving DecidableEq, Repr

/-- Whether a cleanup event is a delivered termination signal. -/
def CleanupEvent.isSignalSent : CleanupEvent → Bool
  | .signalSent _ => true
  | .waited _ => false

/-- Handling of one registry entry inside `cleanup` (server.py:36-38):
`proc.terminate()` followed by `proc.wait()`. `Popen.send_signal` polls the
process and delivers the signal only when `returncode` is still unset, so
terminating an already-exited process delivers nothing and raises nothing;
`wait` on an exited process returns immediately. Afterwards the process has
exited. -/
def cleanupEntry (p : Proc) : Proc × List CleanupEvent :=
  if p.exited then
    (p, [CleanupEvent.waited p.pid])
  else
    ({ p with exited := true }, [CleanupEvent.signalSent p.pid, CleanupEvent.waited p.pid])

/-- Embedding of `cleanup` (server.py:30-38): iterate every value of
`bot_procs`, terminate and join each process. The dict itself is not
modified: no entry is removed. Returns the new state (same keys and room
URLs, processes now exited) and the concatenated event trace. -/
def cleanup (st : ServerState) : ServerState × List CleanupEvent :=
  (⟨st.bot_procs.map fun e => (e.1, (cleanupEntry e.2.1).1, e.2.2)⟩,
    (st.bot_procs.map fun e => (cleanupEntry e.2.1).2).flatten)

/-- The environment variables the status endpoint reads: `os.getenv` yields
`none` when the variable is unset. -/
structure EnvVars where
  daily_api_key : Option String
  google_api_key : Option String
deriving DecidableEq, Repr

/-- Python `bool(os.getenv(name))`: `None` and the empty string are falsy,
any other string is truthy. -/
def getenvTruthy : Option String → Bool
  | none => false
  | some s => !(s == "")

/-- The JSON payload of `GET /` (server.py:80-86). -/
structure StatusPayload where
  status : String
  service : String
  version : String
  daily_api_configured : Bool
  google_api_configured : Bool
deriving DecidableEq, Repr

/-- Embedding of the `GET /` handler `health_check` (server.py:73-86): a
`JSONResponse` (default status 200) with fixed identity fields and the two
configuration flags; the server state is not touched. -/
def health_check (env : EnvVars) (st : ServerState) :
    ServerState × Nat × StatusPayload :=
  (st, 200,
    { status := "ok"
      service := "pipecat-gemini-bot"
      version := "1.0.0"
      daily_api_configured := getenvTruthy env.daily_api_key
      google_api_configured := getenvTruthy env.google_api_key })

/-- Embedding of the `GET /health` handler `health` (server.py:89-96): a
`JSONResponse` (status 200) with body `{"status": "healthy"}`; the server
state is not touched. -/
def health (st : ServerState) : ServerState × Nat × String :=
  (st, 200, "healthy")

/-! ### Concrete scenario inputs used by witnesses and counterexamples -/

/-- The spec's scenario oracle: the external API returns room
`https://x.example/room1` and token `tok123`; spawning succeeds with pid 42. -/
def envScenario : DailyEnv where
  createRoomUrl := "https://x.example/room1"
  getToken := fun _ => "tok123"
  spawn := fun _ => some ⟨42, false⟩
  spawnErr := ""

/-- Oracle where the create-room call returns a room object with empty URL. -/
def envRoomFail : DailyEnv := { envScenario with createRoomUrl := "" }

/-- Oracle where the room is fine but the token comes back empty. -/
def envTokenFail : DailyEnv := { envScenario with getToken := fun _ => "" }

/-- Oracle where provisioning succeeds but `subprocess.Popen` raises. -/
def envSpawnFail : DailyEnv :=
  { envScenario with spawn := fun _ => none, spawnErr := "No such file or directory" }

/-- Server state with an empty registry. -/
def emptyState : ServerState := ⟨[]⟩

/-! ### Helper lemmas about the dict model and cleanup -/

theorem dictLookup_dictInsert_self {α : Type} (l : List (Nat × α)) (k : Nat) (v : α) :
    dictLookup (dictInsert l k v) k = some v := by
  induction l with
  | nil => simp [dictInsert, dictLookup]
  | cons e rest ih =>
    obtain ⟨k₁, v₁⟩ := e
    by_cases h : k₁ = k <;> simp [dictInsert, dictLookup, h, ih]

theorem dictLookup_dictInsert_ne {α : Type} (l : List (Nat × α)) (k q : Nat) (v : α)
    (h : q ≠ k) : dictLookup (dictInsert l k v) q = dictLookup l q := by
  induction l with
  | nil => simp [dictInsert, dictLookup, Ne.symm h]
  | cons e rest ih =>
    obtain ⟨k₁, v₁⟩ := e
    by_cases h₁ : k₁ = k
    · subst h₁
      simp [dictInsert, dictLookup, Ne.symm h]
    · simp [dictInsert, dictLookup, h₁, ih]

theorem length_dictInsert {α : Type} (l : List (Nat × α)) (k : Nat) (v : α) :
    (dictInsert l k v).length =
      if (dictLookup l k).isNone then l.length + 1 else l.length := by
  induction l with
  | nil => simp [dictInsert, dictLookup]
  | cons e rest ih =>
    obtain ⟨k₁, v₁⟩ := e
    by_cases h : k₁ = k
    · simp [dictInsert, dictLookup, h]
    · simp [dictInsert, dictLookup, h, ih]
      split <;> rfl

theorem cleanupEntry_exited (p : Proc) : (cleanupEntry p).1.exited = true := by
  by_cases h : p.exited <;> simp [cleanupEntry, h]

theorem cleanupEntry_of_exited (p : Proc) (h : p.exited = true) :
    cleanupEntry p = (p, [CleanupEvent.waited p.pid]) := by
  simp [cleanupEntry, h]

/-! ### Claims -/

/-- C1: for every successful `POST /connect`, the four steps happen strictly
in the order create room, get token for that room's URL, launch the worker
with the room URL and token as the `-u` and `-t` arguments, register the
session; the HTTP 200 body is exactly the room URL and token that were
obtained and passed to the launcher. -/
theorem connect_success_order_and_body (env : DailyEnv) (st : ServerState) (proc : Proc)
    (h₁ : env.createRoomUrl ≠ "")
    (h₂ : env.getToken env.createRoomUrl ≠ "")
    (h₃ : env.spawn (botCommand env.createRoomUrl (env.getToken env.createRoomUrl)) = some proc) :
    bot_connect env st =
      ([Event.createRoom, Event.getToken env.createRoomUrl,
        Event.launch (botCommand env.createRoomUrl (env.getToken env.createRoomUrl)),
        Event.register proc.pid env.createRoomUrl],
        ⟨dictInsert st.bot_procs proc.pid (proc, env.createRoomUrl)⟩,
        ConnectResult.ok env.createRoomUrl (env.getToken env.createRoomUrl)) ∧
    botCommand env.createRoomUrl (env.getToken env.createRoomUrl) =
      "python3 -m bot-gemini -u " ++ env.createRoomUrl ++ " -t "
        ++ env.getToken env.createRoomUrl ∧
    (ConnectResult.ok env.createRoomUrl (env.getToken env.createRoomUrl)).status = 200 := by
  refine ⟨?_, ?_, rfl⟩
  · simp [bot_connect, create_room_and_token, h₁, h₂, h₃]
  · simp [botCommand, bot_file]

/-- Witness for C1: the spec's scenario, evaluated. -/
theorem connect_success_order_and_body_witness :
    bot_connect envScenario emptyState =
      ([Event.createRoom, Event.getToken "https://x.example/room1",
        Event.launch "python3 -m bot-gemini -u https://x.example/room1 -t tok123",
        Event.register 42 "https://x.example/room1"],
        ⟨[(42, ⟨42, false⟩, "https://x.example/room1")]⟩,
        ConnectResult.ok "https://x.example/room1" "tok123") := by
  have h := connect_success_order_and_body envScenario emptyState ⟨42, false⟩
    (by decide) (by decide) rfl
  rw [h.1]
  rfl

/-- C2: when room creation fails (empty room URL), `/connect` responds
HTTP 500 with a descriptive message, makes no token request, launches no
process, and leaves the registry unchanged: the trace is exactly
`[createRoom]` and the state is returned untouched. -/
theorem connect_room_failure (env : DailyEnv) (st : ServerState)
    (h : env.createRoomUrl = "") :
    bot_connect env st =
      ([Event.createRoom], st, ConnectResult.httpError 500 "Failed to create room") := by
  simp [bot_connect, create_room_and_token, h]

/-- Witness for C2: create-room returns an empty URL. -/
theorem connect_room_failure_witness :
    bot_connect envRoomFail emptyState =
      ([Event.createRoom], emptyState, ConnectResult.httpError 500 "Failed to create room") :=
  connect_room_failure envRoomFail emptyState rfl

/-- C3: when room creation succeeds but the token comes back empty,
`/connect` responds HTTP 500 with the room URL inside the detail message,
no launch happens, and the registry is unchanged: the trace is exactly
`[createRoom, getToken url]` and the state is returned untouched. -/
theorem connect_token_failure (env : DailyEnv) (st : ServerState)
    (h₁ : env.createRoomUrl ≠ "")
    (h₂ : env.getToken env.createRoomUrl = "") :
    bot_connect env st =
      ([Event.createRoom, Event.getToken env.createRoomUrl], st,
        ConnectResult.httpError 500
          ("Failed to get token for room: " ++ env.createRoomUrl)) ∧
    ∃ pre post,
      "Failed to get token for room: " ++ env.createRoomUrl
        = pre ++ env.createRoomUrl ++ post := by
  refine ⟨?_, "Failed to get token for room: ", "", ?_⟩
  · simp [bot_connect, create_room_and_token, h₁, h₂]
  · simp

/-- Witness for C3: token retrieval returns the empty string. -/
theorem connect_token_failure_witness :
    bot_connect envTokenFail emptyState =
      ([Event.createRoom, Event.getToken "https://x.example/room1"], emptyState,
        ConnectResult.httpError 500
          "Failed to get token for room: https://x.example/room1") ∧
    ∃ pre post,
      ("Failed to get token for room: https://x.example/room1" : String)
        = pre ++ "https://x.example/room1" ++ post :=
  connect_token_failure envTokenFail emptyState (by decide) rfl

/-- C4: when provisioning succeeds but spawning raises, `/connect` responds
HTTP 500 with the underlying cause in the detail, and no session record is
registered: the state is returned untouched. -/
theorem connect_launch_failure (env : DailyEnv) (st : ServerState)
    (h₁ : env.createRoomUrl ≠ "")
    (h₂ : env.getToken env.createRoomUrl ≠ "")
    (h₃ : env.spawn (botCommand env.createRoomUrl (env.getToken env.createRoomUrl)) = none) :
    bot_connect env st =
      ([Event.createRoom, Event.getToken env.createRoomUrl,
        Event.launch (botCommand env.createRoomUrl (env.getToken env.createRoomUrl))], st,
        ConnectResult.httpError 500 ("Failed to start subprocess: " ++ env.spawnErr)) ∧
    ∃ pre, "Failed to start subprocess: " ++ env.spawnErr = pre ++ env.spawnErr := by
  refine ⟨?_, "Failed to start subprocess: ", rfl⟩
  simp [bot_connect, create_room_and_token, h₁, h₂, h₃]

/-- Witness for C4: `Popen` raises; the cause lands in the 500 detail. -/
theorem connect_launch_failure_witness :
    bot_connect envSpawnFail emptyState =
      ([Event.createRoom, Event.getToken "https://x.example/room1",
        Event.launch "python3 -m bot-gemini -u https://x.example/room1 -t tok123"],
        emptyState,
        ConnectResult.httpError 500
          "Failed to start subprocess: No such file or directory") ∧
    ∃ pre, ("Failed to start subprocess: No such file or directory" : String)
      = pre ++ "No such file or directory" :=
  connect_launch_failure envSpawnFail emptyState (by decide) (by decide) rfl

/-- C6: every successful `/connect` response carries a non-empty room URL
and a non-empty token. -/
theorem connect_success_nonempty (env : DailyEnv) (st : ServerState)
    (tr : List Event) (st₂ : ServerState) (u t : String)
    (h : bot_connect env st = (tr, st₂, ConnectResult.ok u t)) :
    u ≠ "" ∧ t ≠ "" := by
  by_cases h₁ : env.createRoomUrl = ""
  · simp [bot_connect, create_room_and_token, h₁] at h
  · by_cases h₂ : env.getToken env.createRoomUrl = ""
    · simp [bot_connect, create_room_and_token, h₁, h₂] at h
    · cases h₃ : env.spawn (botCommand env.createRoomUrl (env.getToken env.createRoomUrl)) with
      | none => simp [bot_connect, create_room_and_token, h₁, h₂, h₃] at h
      | some proc =>
        simp [bot_connect, create_room_and_token, h₁, h₂, h₃] at h
        obtain ⟨-, -, hu, ht⟩ := h
        subst hu
        subst ht
        exact ⟨h₁, h₂⟩

/-- Witness for C6: the scenario response has non-empty credentials. -/
theorem connect_success_nonempty_witness :
    ("https://x.example/room1" : String) ≠ "" ∧ ("tok123" : String) ≠ "" :=
  connect_success_nonempty envScenario emptyState
    [Event.createRoom, Event.getToken "https://x.example/room1",
      Event.launch "python3 -m bot-gemini -u https://x.example/room1 -t tok123",
      Event.register 42 "https://x.example/room1"]
    ⟨[(42, ⟨42, false⟩, "https://x.example/room1")]⟩
    "https://x.example/room1" "tok123" rfl

/-- C5 counterexample: `cleanup` does not clear `bot_procs`; with one
registered session, the registry is still non-empty after one cleanup,
refuting the claim that the Session Registry is empty afterwards. -/
theorem cleanup_registry_not_emptied :
    (cleanup ⟨[(7, ⟨7, false⟩, "https://x.example/room1")]⟩).1.bot_procs ≠ [] := by
  decide

/-- C5 amended: after one `cleanup`, every registered process has exited but
the registry retains all its entries; an immediate second `cleanup` is
nevertheless safe and a no-op: it changes no state and delivers no
termination signal (and in this model it raises no error). -/
theorem cleanup_twice_noop (st : ServerState) :
    (cleanup (cleanup st).1).1 = (cleanup st).1 ∧
    ∀ ev ∈ (cleanup (cleanup st).1).2, ev.isSignalSent = false := by
  constructor
  · simp only [cleanup, List.map_map]
    congr 1
    apply List.map_congr_left
    intro e _
    simp [Function.comp, cleanupEntry_of_exited _ (cleanupEntry_exited e.2.1)]
  · intro ev hev
    simp only [cleanup, List.map_map] at hev
    rw [List.mem_flatten] at hev
    obtain ⟨l, hl, hev⟩ := hev
    rw [List.mem_map] at hl
    obtain ⟨e, -, rfl⟩ := hl
    simp only [Function.comp,
      cleanupEntry_of_exited _ (cleanupEntry_exited e.2.1), List.mem_singleton] at hev
    subst hev
    rfl

/-- Witness for C5's amended claim: a concrete double cleanup, with the
second pass inspected at its single (non-signal) event. -/
theorem cleanup_twice_noop_witness :
    (cleanup (cleanup ⟨[(9, ⟨9, false⟩, "https://x.example/room1")]⟩).1).1
      = (cleanup ⟨[(9, ⟨9, false⟩, "https://x.example/room1")]⟩).1 ∧
    (CleanupEvent.waited 9).isSignalSent = false :=
  ⟨(cleanup_twice_noop ⟨[(9, ⟨9, false⟩, "https://x.example/room1")]⟩).1,
    (cleanup_twice_noop ⟨[(9, ⟨9, false⟩, "https://x.example/room1")]⟩).2
      (CleanupEvent.waited 9) (by decide)⟩

/-- C7 counterexample: with DAILY_API_KEY present in the environment but set
to the empty string, an external API key is present yet `GET /` reports
`daily_api_configured = false`. -/
theorem health_check_empty_key_counterexample :
    (⟨some "", none⟩ : EnvVars).daily_api_key ≠ none ∧
    (health_check ⟨some "", none⟩ emptyState).2.2.daily_api_configured = false := by
  decide

/-- C7 amended: `GET /` always returns HTTP 200, and `daily_api_configured`
is true exactly when DAILY_API_KEY is set to a non-empty string; it is
false when the variable is unset or set to the empty string (Python
`bool(os.getenv(...))` treats an empty value as absent). -/
theorem health_check_daily_configured (env : EnvVars) (st : ServerState) :
    (health_check env st).2.1 = 200 ∧
    ((health_check env st).2.2.daily_api_configured = true ↔
      ∃ s, env.daily_api_key = some s ∧ s ≠ "") := by
  refine ⟨rfl, ?_⟩
  cases h : env.daily_api_key with
  | none => simp [health_check, getenvTruthy, h]
  | some s => simp [health_check, getenvTruthy, h]

/-- C8: `cleanup` with zero registered sessions completes without error and
does nothing; and for a record whose process has already exited, the
termination step is a no-op for that record: the process handle is
unchanged and no termination signal is delivered, only the
immediately-returning wait happens. -/
theorem cleanup_empty_and_exited_noop (p : Proc) (h : p.exited = true) :
    cleanup emptyState = (emptyState, []) ∧
    cleanupEntry p = (p, [CleanupEvent.waited p.pid]) ∧
    ((cleanupEntry p).2).all (fun e => !(e.isSignalSent)) = true := by
  refine ⟨rfl, cleanupEntry_of_exited p h, ?_⟩
  simp [cleanupEntry_of_exited p h, CleanupEvent.isSignalSent]

/-- Witness for C8: an already-exited process with pid 7. -/
theorem cleanup_empty_and_exited_noop_witness :
    cleanup emptyState = (emptyState, []) ∧
    cleanupEntry ⟨7, true⟩ = (⟨7, true⟩, [CleanupEvent.waited 7]) ∧
    ((cleanupEntry (⟨7, true⟩ : Proc)).2).all (fun e => !(e.isSignalSent)) = true :=
  cleanup_empty_and_exited_noop ⟨7, true⟩ rfl

/-- C9: `GET /` and `GET /health` have no side effects — both return the
server state unchanged — and both respond HTTP 200. -/
theorem health_endpoints_no_side_effects (env : EnvVars) (st : ServerState) :
    (health_check env st).1 = st ∧ (health_check env st).2.1 = 200 ∧
    (health st).1 = st ∧ (health st).2.1 = 200 :=
  ⟨rfl, rfl, rfl, rfl⟩

/-- C10: no request-path operation removes a registry entry, and every
successful `/connect` registers exactly one entry keyed by the spawned
process's pid, storing the process handle together with the room URL that
is returned to the caller; all other keys are untouched (so a pre-existing
entry under the same pid is silently overwritten, and the registry grows by
one exactly when the pid was fresh). -/
theorem connect_registry_update (env : DailyEnv) (st : ServerState) :
    (∀ envv : EnvVars, (health_check envv st).1.bot_procs = st.bot_procs) ∧
    (health st).1.bot_procs = st.bot_procs ∧
    (∀ k, dictLookup st.bot_procs k ≠ none →
      dictLookup (bot_connect env st).2.1.bot_procs k ≠ none) ∧
    (∀ tr st₂ u t, bot_connect env st = (tr, st₂, ConnectResult.ok u t) →
      ∃ proc, env.spawn (botCommand u t) = some proc ∧
        st₂.bot_procs = dictInsert st.bot_procs proc.pid (proc, u) ∧
        dictLookup st₂.bot_procs proc.pid = some (proc, u) ∧
        (∀ k, k ≠ proc.pid →
          dictLookup st₂.bot_procs k = dictLookup st.bot_procs k) ∧
        st₂.bot_procs.length =
          (if (dictLookup st.bot_procs proc.pid).isNone
            then st.bot_procs.length + 1 else st.bot_procs.length)) := by
  refine ⟨fun _ => rfl, rfl, ?_⟩
  by_cases h₁ : env.createRoomUrl = ""
  · constructor
    · intro k hk
      simpa [bot_connect, create_room_and_token, h₁] using hk
    · intro tr st₂ u t h
      simp [bot_connect, create_room_and_token, h₁] at h
  · by_cases h₂ : env.getToken env.createRoomUrl = ""
    · constructor
      · intro k hk
        simpa [bot_connect, create_room_and_token, h₁, h₂] using hk
      · intro tr st₂ u t h
        simp [bot_connect, create_room_and_token, h₁, h₂] at h
    · cases h₃ : env.spawn (botCommand env.createRoomUrl (env.getToken env.createRoomUrl)) with
      | none =>
        constructor
        · intro k hk
          simpa [bot_connect, create_room_and_token, h₁, h₂, h₃] using hk
        · intro tr st₂ u t h
          simp [bot_connect, create_room_and_token, h₁, h₂, h₃] at h
      | some proc =>
        constructor
        · intro k hk
          have hbc : (bot_connect env st).2.1.bot_procs
              = dictInsert st.bot_procs proc.pid (proc, env.createRoomUrl) := by
            simp [bot_connect, create_room_and_token, h₁, h₂, h₃]
          rw [hbc]
          by_cases hk₁ : k = proc.pid
          · subst hk₁
            simp [dictLookup_dictInsert_self]
          · rw [dictLookup_dictInsert_ne _ _ _ _ hk₁]
            exact hk
        · intro tr st₂ u t h
          simp [bot_connect, create_room_and_token, h₁, h₂, h₃] at h
          obtain ⟨-, hst, hu, ht⟩ := h
          subst hu
          subst ht
          refine ⟨proc, h₃, ?_, ?_, ?_, ?_⟩
          · rw [← hst]
          · rw [← hst]
            exact dictLookup_dictInsert_self _ _ _
          · intro k hk
            rw [← hst, dictLookup_dictInsert_ne _ _ _ _ hk]
          · rw [← hst]
            exact length_dictInsert _ _ _

/-- Witness for C10: in the spec scenario the new state holds exactly the
record for pid 42 with the returned room URL. -/
theorem connect_registry_update_witness :
    dictLookup
      ((⟨[(42, ⟨42, false⟩, "https://x.example/room1")]⟩ : ServerState).bot_procs) 42
      = some (⟨42, false⟩, "https://x.example/room1") := by
  obtain ⟨proc, hspawn, -, hlook, -, -⟩ :=
    (connect_registry_update envScenario emptyState).2.2.2
      [Event.createRoom, Event.getToken "https://x.example/room1",
        Event.launch "python3 -m bot-gemini -u https://x.example/room1 -t tok123",
        Event.register 42 "https://x.example/room1"]
      ⟨[(42, ⟨42, false⟩, "https://x.example/room1")]⟩
      "https://x.example/room1" "tok123" rfl
  have hp : proc = ⟨42, false⟩ := by
    simpa [envScenario, eq_comm] using hspawn
  subst hp
  exact hlook

end PipecatServer
